import Mathlib

/-!
Verification development for `pdf_compressor.py`, a batch PDF compressor.

The Python source is shallowly embedded below.  External collaborators
(PIL's image codec, pikepdf's stream extraction and serialisation, the
Ghostscript subprocess, the filesystem) are modelled as explicit
environment data passed to the embedded functions, while every decision
the Python code itself makes (size comparisons, branch conditions,
fallback handling, best-candidate selection, error-list accumulation) is
translated faithfully from the source.  Float arithmetic in the resize
ratio (`ratio = max_size / max(img.size)`; `int(s * ratio)`) is modelled
as exact rational arithmetic, so `int(s * ratio)` becomes natural-number
division `s * max_size / max(w, h)` (truncation toward zero of a
non-negative value, i.e. floor).
-/

namespace PdfCompressor

/-- Raw byte strings are modelled as lists of naturals; `len` is `List.length`. -/
abbrev Bytes := List Nat

/-! ## ImageRecompressor: `compress_image` (source lines 26-44) -/

/-- Mode of a decoded PIL image; the source only distinguishes `RGBA` (converted
to RGB before the JPEG encode) from everything else. -/
inductive ImgMode where
  | rgb
  | rgba
  | other
deriving DecidableEq

/-- Decoded pixel buffer as far as the source inspects it: `img.size = (width, height)`
and `img.mode`. -/
structure PILImage where
  width : Nat
  height : Nat
  mode : ImgMode
deriving DecidableEq

/-- Conversion performed by `img.convert('RGB')` when the mode is `RGBA`
(source lines 39-40). -/
def flattenMode : ImgMode → ImgMode
  | ImgMode.rgba => ImgMode.rgb
  | m => m

/-- Environment abstracting PIL: `Image.open` on a byte payload (None models
an exception such as `UnidentifiedImageError`), and the JPEG encoder
`img.save(..., format='JPEG', optimize=True, quality=q)` as a function of the
(resized, flattened) image and the quality. -/
structure PILEnv where
  decode : Bytes → Option PILImage
  encodeJPEG : PILImage → Nat → Bytes

/-- New size computed by source lines 31-34:
`ratio = max_size / max(img.size); new_size = tuple(int(s * ratio) for s in img.size)`,
guarded by `if max(img.size) > max_size`.  With exact arithmetic
`int(s * ratio) = s * max_size / max w h` (natural division). -/
def compress_image_newSize (w h max_size : Nat) : Nat × Nat :=
  if max_size < max w h then (w * max_size / max w h, h * max_size / max w h)
  else (w, h)

/-- Ways `compress_image` raises: the payload is not a decodable raster image,
or the computed resize target has a zero dimension, on which PIL's
resize-and-JPEG-encode raises (JPEG cannot encode a zero-dimension image). -/
inductive CIError where
  | decodeError
  | degenerateSize
deriving DecidableEq

/-- Embedding of `compress_image(image, max_size, quality)` (source lines 26-44):
decode, conditionally resize by `compress_image_newSize`, flatten `RGBA` to RGB,
re-encode as JPEG at `quality`, and return the encoded bytes unconditionally
(no size comparison is performed here). -/
def compress_image (env : PILEnv) (image : Bytes) (max_size quality : Nat) :
    Except CIError Bytes :=
  match env.decode image with
  | none => Except.error CIError.decodeError
  | some img =>
    let nsz := compress_image_newSize img.width img.height max_size
    if nsz.1 = 0 ∨ nsz.2 = 0 then Except.error CIError.degenerateSize
    else
      Except.ok (env.encodeJPEG { width := nsz.1, height := nsz.2, mode := flattenMode img.mode } quality)

/-- Spec-side definition for refinement comparison only (claim C2 speaks of
"dimensions rounded to the nearest integer"): the nearest integer to
`num / den`, halves rounding up. -/
def roundNearestSpec (num den : Nat) : Nat := (2 * num + den) / (2 * den)

/-! ## ExternalWholeDocumentCompressor: `try_ghostscript_compression`
(source lines 46-72) -/

/-- Full outcome of the `subprocess.run` call: the process ran and exited with
`code` (with `check=True`, a non-zero exit raises `CalledProcessError`), the
executable was missing (`FileNotFoundError`), or the spawn failed with some
other exception (e.g. `PermissionError` when the binary exists but is not
executable), identified by a tag. -/
inductive SpawnOutcome where
  | exited (code : Nat)
  | fileNotFound
  | otherFailure (exc : Nat)
deriving DecidableEq

/-- Embedding of `try_ghostscript_compression` (source lines 68-72) over the
full spawn-outcome domain: `except (CalledProcessError, FileNotFoundError)`
catches exactly non-zero exits and a missing executable, yielding `false`;
normal return of `subprocess.run(..., check=True)` means exit code zero and
yields `true`; any other spawn failure is NOT caught and propagates out of the
function (`Except.error`). -/
def try_ghostscript_full (r : SpawnOutcome) : Except Nat Bool :=
  match r with
  | SpawnOutcome.exited code => Except.ok (if code = 0 then true else false)
  | SpawnOutcome.fileNotFound => Except.ok false
  | SpawnOutcome.otherFailure exc => Except.error exc

/-- Subprocess outcomes that line 71's `except` clause catches, i.e. those for
which `try_ghostscript_compression` returns instead of raising.  The
enclosing `compress_pdf` run modelled by `CompressEnv` returns a value only
when the Ghostscript call did not raise, so its environment carries one of
these; the uncaught `SpawnOutcome.otherFailure` path is modelled by
`try_ghostscript_full`. -/
inductive SubprocResult where
  | exited (code : Nat)
  | fileNotFound
deriving DecidableEq

/-- Inclusion of the caught outcomes into the full spawn-outcome domain. -/
def SubprocResult.toSpawnOutcome : SubprocResult → SpawnOutcome
  | SubprocResult.exited code => SpawnOutcome.exited code
  | SubprocResult.fileNotFound => SpawnOutcome.fileNotFound

/-- Return value of `try_ghostscript_compression` on the caught outcomes:
`true` exactly on exit code zero, `false` on `CalledProcessError` or
`FileNotFoundError`; agrees with `try_ghostscript_full` on this domain (see
`try_ghostscript_compression_agrees`). -/
def try_ghostscript_compression (r : SubprocResult) : Bool :=
  match r with
  | SubprocResult.exited code => if code = 0 then true else false
  | SubprocResult.fileNotFound => false

/-! ## DocumentImageRewriter: `compress_pdf_with_pikepdf` (source lines 74-136) -/

/-- PDF name objects as far as the source inspects them (`pikepdf.Name.DCTDecode`
membership in the `/Filter` chain). -/
inductive PdfName where
  | DCTDecode
  | otherName (tag : Nat)
deriving DecidableEq

/-- An image XObject's stream as the source manipulates it: the raw stored
stream payload, the `/Filter` chain (modelled as a list of names), the
`/DecodeParms` entry (the only decode parameter the source ever writes is the
quality-hint dictionary `{"Quality": q}`, so it is modelled by the quality it
carries), and whether the object has a `/ColorSpace` entry
(`hasattr(raw_image, "ColorSpace")`). -/
structure PdfImageObj where
  payload : Bytes
  filters : List PdfName
  decodeParms : Option Nat
  hasColorSpace : Bool
deriving DecidableEq

/-- Classification of the exception raised by `pdfimage.read_bytes()`:
a `pikepdf.PdfError` whose message contains "unfilterable stream", another
`pikepdf.PdfError`, or any other exception (caught only by the outer
per-image handler). -/
inductive ReadError where
  | pdfUnfilterable
  | pdfOther
  | generic
deriving DecidableEq

/-- Severity of the log record emitted for one image. -/
inductive LogLevel where
  | debug
  | warning
deriving DecidableEq

/-- Per-image environment data: the image object itself, whether
`PdfImage(raw_image)` construction succeeds, the result of
`pdfimage.read_bytes()` (the extracted, de-filtered payload), whether
`pdf.make_stream` plus `raw_image.write` succeeds, and whether assigning
`raw_image.DecodeParms` in the unfilterable-stream fallback succeeds. -/
structure ImgBehavior where
  obj : PdfImageObj
  constructOk : Bool
  readResult : Except ReadError Bytes
  writeOk : Bool
  parmsSetOk : Bool

/-- Result of processing one image: the (possibly rewritten) image object,
whether `modifications_made` was set by this image, and the log record
emitted, if any. -/
structure ImgOutcome where
  obj : PdfImageObj
  modified : Bool
  log : Option LogLevel
deriving DecidableEq

/-- Embedding of the per-image body of `compress_pdf_with_pikepdf`
(source lines 84-125).  Replacement (`raw_image.write(stream, filter=DCTDecode)`)
stores the compressed bytes, sets the filter chain to exactly `[DCTDecode]` and
clears `/DecodeParms`.  The unfilterable-stream fallback (lines 107-120) fires
only when the object has a `/ColorSpace` entry, `DCTDecode` is in its filter
chain and `/DecodeParms` is unset; it then attaches the quality dictionary
without touching the payload.  Failures of the fallback and all non-`PdfError`
exceptions are logged at debug severity; other `PdfError`s at warning. -/
def processImage (env : PILEnv) (image_quality image_max_size : Nat)
    (b : ImgBehavior) : ImgOutcome :=
  if b.constructOk = false then { obj := b.obj, modified := false, log := some LogLevel.debug }
  else
    match b.readResult with
    | Except.ok img_bytes =>
      match compress_image env img_bytes image_max_size image_quality with
      | Except.ok compressed_img_bytes =>
        if compressed_img_bytes.length < img_bytes.length then
          if b.writeOk then
            { obj := { payload := compressed_img_bytes, filters := [PdfName.DCTDecode],
                       decodeParms := none, hasColorSpace := b.obj.hasColorSpace },
              modified := true, log := some LogLevel.debug }
          else { obj := b.obj, modified := false, log := some LogLevel.debug }
        else { obj := b.obj, modified := false, log := none }
      | Except.error _ => { obj := b.obj, modified := false, log := some LogLevel.debug }
    | Except.error ReadError.pdfUnfilterable =>
      if b.obj.hasColorSpace = true ∧ PdfName.DCTDecode ∈ b.obj.filters then
        if b.obj.decodeParms = none then
          if b.parmsSetOk then
            { obj := { b.obj with decodeParms := some image_quality },
              modified := true, log := some LogLevel.debug }
          else { obj := b.obj, modified := false, log := some LogLevel.debug }
        else { obj := b.obj, modified := false, log := none }
      else { obj := b.obj, modified := false, log := none }
    | Except.error ReadError.pdfOther =>
      { obj := b.obj, modified := false, log := some LogLevel.warning }
    | Except.error ReadError.generic =>
      { obj := b.obj, modified := false, log := some LogLevel.debug }

/-- Document-level environment for one `compress_pdf_with_pikepdf` run: the
result of `pikepdf.open` (None models an exception while opening or walking
the page/image structure), as pages each holding its image behaviors in
iteration order, and whether the final `pdf.save` succeeds. -/
structure DocBehavior where
  openResult : Option (List (List ImgBehavior))
  saveOk : Bool

/-- Embedding of `compress_pdf_with_pikepdf` (source lines 74-136): open the
document, process every image of every page with `processImage`, then save.
Returns the success flag and, when the save succeeded, the serialized pages.
The outer `except` makes open or save failures return `false`. -/
def compress_pdf_with_pikepdf (env : PILEnv) (image_quality image_max_size : Nat)
    (d : DocBehavior) : Bool × Option (List (List PdfImageObj)) :=
  match d.openResult with
  | none => (false, none)
  | some pages =>
    let processed := pages.map (fun page =>
      page.map (fun b => (processImage env image_quality image_max_size b).obj))
    if d.saveOk then (true, some processed) else (false, none)

/-! ## CompressionOrchestrator: `compress_pdf` (source lines 138-188) -/

/-- Options dictionary passed to `compress_pdf`; `main` always fills all four
keys (source lines 231-236). -/
structure CompressOptions where
  image_quality : Nat
  image_max_size : Nat
  try_ghostscript : Bool
  gs_compression_level : Nat

/-- Environment for one `compress_pdf` run: the input file's bytes, the
Ghostscript subprocess outcome, the file present at the Ghostscript scratch
path afterwards (if any), the PIL environment, the pikepdf document behavior,
and the file present at the pikepdf scratch path after its save attempt. -/
structure CompressEnv where
  input : Bytes
  gsProc : SubprocResult
  gsFile : Option Bytes
  pilEnv : PILEnv
  pikeDoc : DocBehavior
  pikeFile : Option Bytes

/-- Embedding of one candidate consideration in `compress_pdf` (source lines
157-161 and 174-179): when the strategy reported success and its scratch file
exists, and its size beats the current best, it becomes the new best. -/
def stepCandidate (best : Nat × Option Bytes) (success : Bool) (file : Option Bytes) :
    Nat × Option Bytes :=
  if success = true then
    match file with
    | some b => if b.length < best.1 then (b.length, some b) else best
    | none => best
  else best

/-- Best candidate after the Ghostscript attempt (source lines 150-162),
starting from `best_size = original_size`, `best_file = None`. -/
def gsBest (opts : CompressOptions) (env : CompressEnv) : Nat × Option Bytes :=
  if opts.try_ghostscript then
    stepCandidate (env.input.length, none) (try_ghostscript_compression env.gsProc) env.gsFile
  else (env.input.length, none)

/-- Success flag of the pikepdf strategy as `compress_pdf` computes it
(source lines 166-172). -/
def pikepdfSuccess (opts : CompressOptions) (env : CompressEnv) : Bool :=
  (compress_pdf_with_pikepdf env.pilEnv opts.image_quality opts.image_max_size env.pikeDoc).1

/-- Best candidate after both strategies (source lines 174-179). -/
def finalBest (opts : CompressOptions) (env : CompressEnv) : Nat × Option Bytes :=
  stepCandidate (gsBest opts env) (pikepdfSuccess opts env) env.pikeFile

/-- Embedding of `compress_pdf` (source lines 138-188): returns
`(improved, original_size, final_size)` together with the bytes copied to
`output_path` (the best candidate when one beat the original, otherwise a
byte-for-byte copy of the input, lines 181-188). -/
def compress_pdf (opts : CompressOptions) (env : CompressEnv) :
    (Bool × Nat × Nat) × Bytes :=
  let original_size := env.input.length
  match (finalBest opts env).2 with
  | some best_file => ((true, original_size, (finalBest opts env).1), best_file)
  | none => ((false, original_size, original_size), env.input)

/-- Candidate files `compress_pdf` actually considers: a strategy's scratch
file when that strategy reported success and the file exists. -/
def candidateFiles (opts : CompressOptions) (env : CompressEnv) : List Bytes :=
  (if opts.try_ghostscript then
    (if try_ghostscript_compression env.gsProc = true then env.gsFile.toList else [])
   else []) ++
  (if pikepdfSuccess opts env = true then env.pikeFile.toList else [])

/-! ## Filesystem model for the frame property (claim C9) -/

/-- File paths. -/
abbrev FPath := Nat

/-- Filesystem contents: each path maps to the bytes stored there, if any. -/
abbrev FileSys := FPath → Option Bytes

/-- Overwrite the file at `p` with bytes `b`. -/
def fsWrite (fs : FileSys) (p : FPath) (b : Bytes) : FileSys :=
  fun q => if q = p then some b else fs q

/-- Remove the file at `p` (temporary-directory cleanup). -/
def fsErase (fs : FileSys) (p : FPath) : FileSys :=
  fun q => if q = p then none else fs q

/-- Write optional contents (a strategy that produced no file writes nothing). -/
def fsWriteOpt (fs : FileSys) (p : FPath) (b : Option Bytes) : FileSys :=
  match b with
  | some bb => fsWrite fs p bb
  | none => fs

/-- Filesystem effect of one `compress_pdf` run (source lines 146-188):
the Ghostscript attempt may write its scratch path `tGs` (only when the
strategy is enabled), the pikepdf save may write its scratch path `tPike`,
`shutil.copy2` writes the selected bytes to `outputP`, and the
`TemporaryDirectory` context manager erases both scratch paths on every exit
path.  No other path is written. -/
def compress_pdf_fs (opts : CompressOptions) (env : CompressEnv)
    (outputP tGs tPike : FPath) (fs : FileSys) : FileSys :=
  let fs1 := fsWriteOpt fs tGs (if opts.try_ghostscript then env.gsFile else none)
  let fs2 := fsWriteOpt fs1 tPike env.pikeFile
  let fs3 := fsWrite fs2 outputP (compress_pdf opts env).2
  fsErase (fsErase fs3 tGs) tPike

/-! ## BatchRunner: `main` (source lines 200-278) -/

/-- One discovered input file: its name and the outcome of the `compress_pdf`
call on it (`Except.error` models an exception escaping `compress_pdf`, caught
by the per-file handler at source lines 267-269). -/
abbrev FileRun := Nat × Except Nat (Bool × Nat × Nat)

/-- Record of one file's processing, mirroring the per-file log record
(source lines 261-269). -/
inductive BatchOutcome where
  | done (improved : Bool) (original compressed : Nat)
  | failed (err : Nat)
deriving DecidableEq

/-- Predicate for a failed run. -/
def isFailedRun (f : FileRun) : Bool :=
  match f.2 with
  | Except.error _ => true
  | Except.ok _ => false

/-- Body of the per-file loop (source lines 246-269): append this file's
record, and on exception also append its name to `error_files`. -/
def batchStep (acc : List (Nat × BatchOutcome) × List Nat) (f : FileRun) :
    List (Nat × BatchOutcome) × List Nat :=
  match f.2 with
  | Except.ok r => (acc.1 ++ [(f.1, BatchOutcome.done r.1 r.2.1 r.2.2)], acc.2)
  | Except.error e => (acc.1 ++ [(f.1, BatchOutcome.failed e)], acc.2 ++ [f.1])

/-- The whole per-file loop over the discovered files, in discovery order. -/
def runBatch (files : List FileRun) : List (Nat × BatchOutcome) × List Nat :=
  files.foldl batchStep ([], [])

/-- Embedding of `create_error_log` (source lines 190-198). -/
structure ErrorLog where
  timestamp : Nat
  error_files : List Nat
deriving DecidableEq

/-- Embedding of `create_error_log(error_files, log_path)`. -/
def create_error_log (now : Nat) (error_files : List Nat) : ErrorLog :=
  { timestamp := now, error_files := error_files }

/-- Embedding of the tail of `main` after directory validation (source lines
239-278): run the batch, write `compression_errors.json` exactly when
`error_files` is non-empty, and return exit code 0. -/
def mainBatch (now : Nat) (files : List FileRun) :
    Nat × List (Nat × BatchOutcome) × Option ErrorLog :=
  let res := runBatch files
  let log := if res.2.isEmpty then none else some (create_error_log now res.2)
  (0, res.1, log)

/-- Per-file record the loop body produces for one file run. -/
def outcomeOf (f : FileRun) : BatchOutcome :=
  match f.2 with
  | Except.ok r => BatchOutcome.done r.1 r.2.1 r.2.2
  | Except.error e => BatchOutcome.failed e

/-! ## Auxiliary predicates -/

/-- Extraction or decode fails for an image: `PdfImage` construction raises,
`read_bytes` raises, or `compress_image` raises on the extracted bytes
(payload not a parsable raster image, or degenerate resize target). -/
def ExtractionFails (env : PILEnv) (q m : Nat) (b : ImgBehavior) : Prop :=
  b.constructOk = false ∨
  (∃ e, b.readResult = Except.error e) ∨
  (∃ bs, b.readResult = Except.ok bs ∧ ∃ e, compress_image env bs m q = Except.error e)

/-- Invariant of the running `(best_size, best_file)` pair of `compress_pdf`
with respect to the original size and the candidates considered so far. -/
def BestInv (orig : Nat) (cands : List Bytes) (best : Nat × Option Bytes) : Prop :=
  best.1 ≤ orig ∧
  (best.2 = none → best.1 = orig) ∧
  (∀ b, best.2 = some b → b ∈ cands ∧ b.length = best.1 ∧ best.1 < orig) ∧
  (∀ c ∈ cands, best.1 ≤ c.length)

/-! ## Concrete sample data used by the witness theorems -/

/-- Sample PIL environment: the payloads `[0]` and `replicate 100 1` decode to
a 2 x 2 RGB image; the JPEG encoder emits `width + height + quality` copies of
byte 3. -/
def pilEnvA : PILEnv :=
  { decode := fun b =>
      if b = [0] ∨ b = List.replicate 100 1 then
        some { width := 2, height := 2, mode := ImgMode.rgb }
      else none,
    encodeJPEG := fun img q => List.replicate (img.width + img.height + q) 3 }

/-- Sample PIL environment whose payload `[0]` decodes to an extreme-aspect
5000 x 1 image. -/
def pilEnvWide : PILEnv :=
  { decode := fun b =>
      if b = [0] then some { width := 5000, height := 1, mode := ImgMode.rgb } else none,
    encodeJPEG := fun _ _ => [] }

/-- Sample image behavior whose extraction succeeds with a 100-byte payload
that recompresses to 89 bytes. -/
def behReplace : ImgBehavior :=
  { obj := { payload := [1, 1], filters := [PdfName.otherName 0],
             decodeParms := none, hasColorSpace := true },
    constructOk := true,
    readResult := Except.ok (List.replicate 100 1),
    writeOk := true, parmsSetOk := true }

/-- Sample image behavior whose extraction raises a generic exception. -/
def behFail : ImgBehavior :=
  { obj := { payload := [7, 7, 7], filters := [PdfName.otherName 1],
             decodeParms := none, hasColorSpace := true },
    constructOk := true,
    readResult := Except.error ReadError.generic,
    writeOk := true, parmsSetOk := true }

/-- Sample image behavior hitting the unfilterable-stream fallback with a
`/ColorSpace` entry, a `DCTDecode` filter chain and no `/DecodeParms`. -/
def behUnfilterable : ImgBehavior :=
  { obj := { payload := [9], filters := [PdfName.DCTDecode],
             decodeParms := none, hasColorSpace := true },
    constructOk := true,
    readResult := Except.error ReadError.pdfUnfilterable,
    writeOk := true, parmsSetOk := true }

/-- Sample image behavior raising a `pikepdf.PdfError` that is not an
unfilterable-stream error. -/
def behPdfOther : ImgBehavior :=
  { obj := { payload := [9, 9], filters := [PdfName.DCTDecode],
             decodeParms := none, hasColorSpace := true },
    constructOk := true,
    readResult := Except.error ReadError.pdfOther,
    writeOk := true, parmsSetOk := true }

/-- Counterexample behavior for claim C7: unfilterable stream, `DCTDecode`
filter chain, no `/DecodeParms`, but no `/ColorSpace` entry. -/
def behNoColorSpace : ImgBehavior :=
  { obj := { payload := [5], filters := [PdfName.DCTDecode],
             decodeParms := none, hasColorSpace := false },
    constructOk := true,
    readResult := Except.error ReadError.pdfUnfilterable,
    writeOk := true, parmsSetOk := true }

/-- Sample document that opens with one page holding one image and saves. -/
def docA : DocBehavior := { openResult := some [[behReplace]], saveOk := true }

/-- Sample document with one failing image. -/
def docFail : DocBehavior := { openResult := some [[behFail]], saveOk := true }

/-- Sample options as `main` builds them at the defaults. -/
def optsA : CompressOptions :=
  { image_quality := 85, image_max_size := 1024, try_ghostscript := true,
    gs_compression_level := 0 }

/-- Sample orchestrator environment: a 10-byte input, Ghostscript succeeds
producing 5 bytes, the pikepdf rewriter succeeds producing 7 bytes. -/
def envImproved : CompressEnv :=
  { input := List.replicate 10 1,
    gsProc := SubprocResult.exited 0,
    gsFile := some (List.replicate 5 2),
    pilEnv := pilEnvA,
    pikeDoc := { openResult := some [], saveOk := true },
    pikeFile := some (List.replicate 7 3) }

/-- Sample filesystem holding bytes only at path 0. -/
def fsA : FileSys := fun p => if p = 0 then some [9, 9] else none

/-- Sample batch: three files, the second of which raises. -/
def filesA : List FileRun :=
  [(1, Except.ok (true, 10, 5)), (2, Except.error 0), (3, Except.ok (false, 8, 8))]

/-! ## Helper lemmas -/

lemma bestInv_init (orig : Nat) : BestInv orig [] (orig, none) := by
  refine ⟨le_refl _, fun _ => rfl, ?_, ?_⟩
  · intro b hb
    simp at hb
  · intro c hc
    simp at hc

lemma bestInv_step (orig : Nat) (cands : List Bytes) (best : Nat × Option Bytes)
    (s : Bool) (f : Option Bytes) (h : BestInv orig cands best) :
    BestInv orig (cands ++ (if s = true then f.toList else [])) (stepCandidate best s f) := by
  obtain ⟨h1, h2, h3, h4⟩ := h
  cases s with
  | false => simpa [stepCandidate] using ⟨h1, h2, h3, h4⟩
  | true =>
    cases f with
    | none => simpa [stepCandidate] using ⟨h1, h2, h3, h4⟩
    | some b =>
      by_cases hlt : b.length < best.1
      · refine ⟨?_, ?_, ?_, ?_⟩ <;> simp only [stepCandidate, if_pos hlt, if_true]
        · exact le_of_lt (lt_of_lt_of_le hlt h1)
        · intro hh
          simp at hh
        · intro b' hb'
          simp only [Option.some.injEq] at hb'
          subst hb'
          exact ⟨by simp, rfl, lt_of_lt_of_le hlt h1⟩
        · intro c hc
          rcases List.mem_append.mp hc with hc | hc
          · exact le_trans (le_of_lt hlt) (h4 c hc)
          · simp only [Option.toList_some, List.mem_singleton] at hc
            subst hc
            exact le_refl _
      · refine ⟨?_, ?_, ?_, ?_⟩ <;> simp only [stepCandidate, if_neg hlt, if_true]
        · exact h1
        · exact h2
        · intro b' hb'
          obtain ⟨hm, hl, ho⟩ := h3 b' hb'
          exact ⟨List.mem_append.mpr (Or.inl hm), hl, ho⟩
        · intro c hc
          rcases List.mem_append.mp hc with hc | hc
          · exact h4 c hc
          · simp only [Option.toList_some, List.mem_singleton] at hc
            subst hc
            exact le_of_not_lt hlt

lemma bestInv_gs (opts : CompressOptions) (env : CompressEnv) :
    BestInv env.input.length
      (if opts.try_ghostscript then
        (if try_ghostscript_compression env.gsProc = true then env.gsFile.toList else [])
       else [])
      (gsBest opts env) := by
  unfold gsBest
  by_cases ht : opts.try_ghostscript = true
  · simp only [ht, if_true]
    simpa using bestInv_step env.input.length [] (env.input.length, none)
      (try_ghostscript_compression env.gsProc) env.gsFile (bestInv_init _)
  · simp only [ht, if_false]
    exact bestInv_init _

lemma bestInv_final (opts : CompressOptions) (env : CompressEnv) :
    BestInv env.input.length (candidateFiles opts env) (finalBest opts env) := by
  unfold finalBest candidateFiles
  exact bestInv_step _ _ _ _ _ (bestInv_gs opts env)

lemma processImage_fail_payload (env : PILEnv) (q m : Nat) (b : ImgBehavior)
    (hfail : ExtractionFails env q m b) :
    (processImage env q m b).obj.payload = b.obj.payload := by
  unfold processImage
  split
  · rfl
  next hns =>
    rcases hfail with hc | ⟨e, he⟩ | ⟨bs, hbs, e, he⟩
    · exact absurd hc hns
    · rw [he]
      cases e
      · dsimp only
        split
        · split
          · split <;> rfl
          · rfl
        · rfl
      · rfl
      · rfl
    · rw [hbs]
      dsimp only
      rw [he]

lemma runBatch_go (files : List FileRun) (rs : List (Nat × BatchOutcome)) (errs : List Nat) :
    files.foldl batchStep (rs, errs) =
      (rs ++ files.map (fun f => (f.1, outcomeOf f)),
       errs ++ (files.filter (fun f => isFailedRun f)).map Prod.fst) := by
  induction files generalizing rs errs with
  | nil => simp
  | cons f fs ih =>
    cases hf : f.2 with
    | ok r =>
      simp only [List.foldl_cons, batchStep, hf, List.map_cons, List.filter_cons,
        outcomeOf, isFailedRun, ih]
      simp [hf]
    | error e =>
      simp only [List.foldl_cons, batchStep, hf, List.map_cons, List.filter_cons,
        outcomeOf, isFailedRun, ih]
      simp [hf]

lemma div_le_self_of_le (s m L : Nat) (hL : 0 < L) (hm : m ≤ L) : s * m / L ≤ s := by
  calc s * m / L ≤ s * L / L := Nat.div_le_div_right (Nat.mul_le_mul_left s hm)
  _ = s := Nat.mul_div_cancel _ hL

lemma try_ghostscript_compression_agrees (r : SubprocResult) :
    try_ghostscript_full r.toSpawnOutcome = Except.ok (try_ghostscript_compression r) := by
  cases r <;> rfl

/-! ## Claim theorems -/

/-- C1: for every input, `compress_pdf` returns `(improved, original_size,
final_size)` with `final_size <= original_size`; when no considered candidate
is strictly smaller than the original it returns `improved = false`,
`final_size = original_size`, and writes a byte-for-byte copy of the input to
the output path; when a candidate is smaller it writes the smallest candidate
and returns `improved = true` with `final_size` equal to that candidate's
size. -/
theorem C1_orchestrator_commits_smallest (opts : CompressOptions) (env : CompressEnv) :
    (compress_pdf opts env).1.2.1 = env.input.length ∧
    (compress_pdf opts env).1.2.2 ≤ env.input.length ∧
    ((compress_pdf opts env).1.1 = false →
      (compress_pdf opts env).1.2.2 = env.input.length ∧
      (compress_pdf opts env).2 = env.input ∧
      ∀ c ∈ candidateFiles opts env, env.input.length ≤ c.length) ∧
    ((compress_pdf opts env).1.1 = true →
      (compress_pdf opts env).2 ∈ candidateFiles opts env ∧
      ((compress_pdf opts env).2).length = (compress_pdf opts env).1.2.2 ∧
      (compress_pdf opts env).1.2.2 < env.input.length ∧
      ∀ c ∈ candidateFiles opts env, (compress_pdf opts env).1.2.2 ≤ c.length) := by
  obtain ⟨h1, h2, h3, h4⟩ := bestInv_final opts env
  unfold compress_pdf
  cases hb : (finalBest opts env).2 with
  | none =>
    have horig := h2 hb
    refine ⟨rfl, le_refl _, ?_, ?_⟩
    · intro _
      exact ⟨rfl, rfl, fun c hc => horig ▸ h4 c hc⟩
    · intro hcontra
      simp at hcontra
  | some bf =>
    obtain ⟨hmem, hlen, hlt⟩ := h3 bf hb
    refine ⟨rfl, le_of_lt (lt_of_le_of_lt (le_of_eq rfl) hlt), ?_, ?_⟩
    · intro hcontra
      simp at hcontra
    · intro _
      exact ⟨hmem, hlen, hlt, h4⟩

/-- Witness for C1 at a concrete environment where Ghostscript produces the
smallest candidate. -/
theorem C1_orchestrator_commits_smallest_witness :
    (compress_pdf optsA envImproved).1.1 = true ∧
    (compress_pdf optsA envImproved).1.2.2 ≤ envImproved.input.length ∧
    (compress_pdf optsA envImproved).2 ∈ candidateFiles optsA envImproved :=
  ⟨by decide, (C1_orchestrator_commits_smallest optsA envImproved).2.1,
    ((C1_orchestrator_commits_smallest optsA envImproved).2.2.2 (by decide)).1⟩

/-- C4 counterexample: a spawn failure other than a missing executable — e.g.
`PermissionError` (errno 13), modelled as `SpawnOutcome.otherFailure 13` — is
not caught by `except (CalledProcessError, FileNotFoundError)` at source line
71: `try_ghostscript_compression` propagates the exception instead of
returning false, contradicting the claim's "spawn failure ... return false
(rather than propagate an exception)". -/
theorem C4_spawn_failure_counterexample :
    try_ghostscript_full (SpawnOutcome.otherFailure 13) = Except.error 13 ∧
    try_ghostscript_full (SpawnOutcome.otherFailure 13) ≠ Except.ok false ∧
    try_ghostscript_full (SpawnOutcome.otherFailure 13) ≠ Except.ok true :=
  ⟨rfl, fun h => Except.noConfusion h, fun h => Except.noConfusion h⟩

/-- C4 amended: `try_ghostscript_compression` returns true exactly when the
process exits with code zero; a non-zero exit (`CalledProcessError`) or a
missing executable (`FileNotFoundError`) returns false rather than
propagating; any other spawn failure is not caught and propagates to the
caller; on the caught outcomes the Bool-returning view agrees with the full
model, and the orchestrator ignores a strategy whose scratch file does not
exist. -/
theorem C4_ghostscript_amended (r : SpawnOutcome) :
    (try_ghostscript_full r = Except.ok true ↔ r = SpawnOutcome.exited 0) ∧
    (∀ code, code ≠ 0 →
      try_ghostscript_full (SpawnOutcome.exited code) = Except.ok false) ∧
    try_ghostscript_full SpawnOutcome.fileNotFound = Except.ok false ∧
    (∀ exc, try_ghostscript_full (SpawnOutcome.otherFailure exc) = Except.error exc) ∧
    (∀ r2 : SubprocResult,
      try_ghostscript_full r2.toSpawnOutcome = Except.ok (try_ghostscript_compression r2)) ∧
    (∀ best s, stepCandidate best s none = best) := by
  refine ⟨?_, ?_, rfl, fun exc => rfl, try_ghostscript_compression_agrees, ?_⟩
  · cases r with
    | exited code =>
      by_cases h : code = 0 <;> simp [try_ghostscript_full, h]
    | fileNotFound => simp [try_ghostscript_full]
    | otherFailure exc => simp [try_ghostscript_full]
  · intro code hc
    simp [try_ghostscript_full, hc]
  · intro best s
    cases s <;> simp [stepCandidate]

/-- Witness for C4 amended at concrete spawn outcomes, including an uncaught
spawn failure. -/
theorem C4_ghostscript_amended_witness :
    try_ghostscript_full (SpawnOutcome.exited 0) = Except.ok true ∧
    try_ghostscript_full (SpawnOutcome.exited 1) = Except.ok false ∧
    try_ghostscript_full SpawnOutcome.fileNotFound = Except.ok false ∧
    try_ghostscript_full (SpawnOutcome.otherFailure 13) = Except.error 13 :=
  ⟨(C4_ghostscript_amended (SpawnOutcome.exited 0)).1.mpr rfl,
    (C4_ghostscript_amended (SpawnOutcome.exited 1)).2.1 1 (by decide),
    (C4_ghostscript_amended SpawnOutcome.fileNotFound).2.2.1,
    (C4_ghostscript_amended (SpawnOutcome.otherFailure 13)).2.2.2.1 13⟩

/-- C5: `compress_pdf_with_pikepdf` returns true exactly when the document
opens and the final save succeeds, independently of every per-image outcome;
no per-image failure ever produces a false return. -/
theorem C5_rewriter_success_flag (env : PILEnv) (q m : Nat) (d : DocBehavior) :
    (compress_pdf_with_pikepdf env q m d).1 = true ↔
      d.openResult.isSome = true ∧ d.saveOk = true := by
  unfold compress_pdf_with_pikepdf
  cases ho : d.openResult with
  | none => simp
  | some pages =>
    by_cases hs : d.saveOk = true <;> simp [hs]

/-- Witness for C5: a document whose only image fails to extract still
returns true. -/
theorem C5_rewriter_success_flag_witness :
    (compress_pdf_with_pikepdf pilEnvA 85 1024 docFail).1 = true :=
  (C5_rewriter_success_flag pilEnvA 85 1024 docFail).mpr ⟨rfl, rfl⟩

/-- C2 counterexample: the claim says the smaller dimension is rounded to the
nearest integer, but the source truncates (`int(s * ratio)`).  For a
3000 x 2000 input at max_dimension 1024 the exact scaled height is
2000 * 1024 / 3000 = 682.66..: the code computes 682 while rounding to the
nearest integer gives 683. -/
theorem C2_resize_rounding_counterexample :
    (compress_image_newSize 3000 2000 1024).2 = 682 ∧
    roundNearestSpec (2000 * 1024) 3000 = 683 ∧
    (682 : Nat) ≠ 683 := by
  refine ⟨?_, ?_, by decide⟩ <;> decide

/-- C2 amended: when the larger of width/height exceeds `max_dimension` the
image is downsampled uniformly so that the larger output dimension equals
`max_dimension` exactly and the smaller equals the exact scaled value
truncated (floored), never exceeding the input dimensions; images whose
larger dimension does not exceed `max_dimension` are not resized; on the
claim's own 5000 x 3000 example truncation also yields 1024 x 614. -/
theorem C2_resize_amended (w h max_size : Nat) (hpos : 0 < max_size) :
    (max_size < max w h →
      max (compress_image_newSize w h max_size).1 (compress_image_newSize w h max_size).2
        = max_size ∧
      min (compress_image_newSize w h max_size).1 (compress_image_newSize w h max_size).2
        = min w h * max_size / max w h ∧
      (compress_image_newSize w h max_size).1 ≤ w ∧
      (compress_image_newSize w h max_size).2 ≤ h) ∧
    (¬ max_size < max w h → compress_image_newSize w h max_size = (w, h)) ∧
    compress_image_newSize 5000 3000 1024 = (1024, 614) := by
  refine ⟨?_, ?_, by decide⟩
  · intro hlt
    have hL : 0 < max w h := lt_trans hpos hlt
    have hmle : max_size ≤ max w h := le_of_lt hlt
    simp only [compress_image_newSize, if_pos hlt]
    refine ⟨?_, ?_, ?_, ?_⟩
    · rcases le_total h w with hhw | hwh
      · rw [max_eq_left hhw] at hL hmle ⊢
        have hw1 : w * max_size / w = max_size := by
          rw [Nat.mul_comm]
          exact Nat.mul_div_cancel _ hL
        have hh1 : h * max_size / w ≤ max_size := by
          calc h * max_size / w ≤ w * max_size / w :=
            Nat.div_le_div_right (Nat.mul_le_mul_right max_size hhw)
          _ = max_size := hw1
        rw [hw1]
        exact max_eq_left hh1
      · rw [max_eq_right hwh] at hL hmle ⊢
        have hh1 : h * max_size / h = max_size := by
          rw [Nat.mul_comm]
          exact Nat.mul_div_cancel _ hL
        have hw1 : w * max_size / h ≤ max_size := by
          calc w * max_size / h ≤ h * max_size / h :=
            Nat.div_le_div_right (Nat.mul_le_mul_right max_size hwh)
          _ = max_size := hh1
        rw [hh1]
        exact max_eq_right hw1
    · rcases le_total h w with hhw | hwh
      · rw [max_eq_left hhw] at hL hmle ⊢
        rw [min_eq_right hhw]
        have hw1 : w * max_size / w = max_size := by
          rw [Nat.mul_comm]
          exact Nat.mul_div_cancel _ hL
        have hh1 : h * max_size / w ≤ max_size := by
          calc h * max_size / w ≤ w * max_size / w :=
            Nat.div_le_div_right (Nat.mul_le_mul_right max_size hhw)
          _ = max_size := hw1
        rw [hw1]
        exact min_eq_right hh1
      · rw [max_eq_right hwh] at hL hmle ⊢
        rw [min_eq_left hwh]
        have hh1 : h * max_size / h = max_size := by
          rw [Nat.mul_comm]
          exact Nat.mul_div_cancel _ hL
        have hw1 : w * max_size / h ≤ max_size := by
          calc w * max_size / h ≤ h * max_size / h :=
            Nat.div_le_div_right (Nat.mul_le_mul_right max_size hwh)
          _ = max_size := hh1
        rw [hh1]
        exact min_eq_left hw1
    · exact div_le_self_of_le w max_size (max w h) hL hmle
    · exact div_le_self_of_le h max_size (max w h) hL hmle
  · intro hge
    simp only [compress_image_newSize, if_neg hge]

/-- Witness for C2 amended at the claim's own 5000 x 3000 example. -/
theorem C2_resize_amended_witness :
    (0 : Nat) < 1024 ∧
    max (compress_image_newSize 5000 3000 1024).1 (compress_image_newSize 5000 3000 1024).2
      = 1024 ∧
    compress_image_newSize 5000 3000 1024 = (1024, 614) :=
  ⟨by decide,
    ((C2_resize_amended 5000 3000 1024 (by decide)).1 (by decide)).1,
    (C2_resize_amended 5000 3000 1024 (by decide)).2.2⟩

/-- C3: `compress_image` returns the re-encoded payload unconditionally (no
size comparison is involved in its result), and the per-image rewriting in
`compress_pdf_with_pikepdf` replaces an image's stored payload exactly when
the recompressed payload is strictly smaller in bytes than the extracted
original payload, setting the encoding to `DCTDecode` on replacement and
leaving the image object unmodified otherwise. -/
theorem C3_replace_iff_strictly_smaller (env : PILEnv) (q m : Nat)
    (image : Bytes) (img : PILImage)
    (hdec : env.decode image = some img)
    (h1 : (compress_image_newSize img.width img.height m).1 ≠ 0)
    (h2 : (compress_image_newSize img.width img.height m).2 ≠ 0)
    (b : ImgBehavior) (img_bytes compressed : Bytes)
    (hc : b.constructOk = true)
    (hr : b.readResult = Except.ok img_bytes)
    (hcomp : compress_image env img_bytes m q = Except.ok compressed)
    (hw : b.writeOk = true) :
    compress_image env image m q =
      Except.ok (env.encodeJPEG
        { width := (compress_image_newSize img.width img.height m).1,
          height := (compress_image_newSize img.width img.height m).2,
          mode := flattenMode img.mode } q) ∧
    (compressed.length < img_bytes.length →
      (processImage env q m b).obj =
        { payload := compressed, filters := [PdfName.DCTDecode], decodeParms := none,
          hasColorSpace := b.obj.hasColorSpace } ∧
      (processImage env q m b).modified = true) ∧
    (¬ compressed.length < img_bytes.length →
      (processImage env q m b).obj = b.obj ∧
      (processImage env q m b).modified = false) := by
  refine ⟨?_, ?_, ?_⟩
  · unfold compress_image
    rw [hdec]
    simp [h1, h2]
  · intro hlt
    unfold processImage
    rw [hc]
    dsimp only
    rw [hr]
    dsimp only
    rw [hcomp]
    dsimp only
    rw [if_pos hlt, if_pos hw]
    exact ⟨rfl, rfl⟩
  · intro hge
    unfold processImage
    rw [hc]
    dsimp only
    rw [hr]
    dsimp only
    rw [hcomp]
    dsimp only
    rw [if_neg hge]
    exact ⟨rfl, rfl⟩

/-- Witness for C3 at a concrete image whose 100-byte extracted payload
recompresses to 89 bytes. -/
theorem C3_replace_iff_strictly_smaller_witness :
    compress_image pilEnvA [0] 1024 85 =
      Except.ok (pilEnvA.encodeJPEG
        { width := (compress_image_newSize 2 2 1024).1,
          height := (compress_image_newSize 2 2 1024).2,
          mode := flattenMode ImgMode.rgb } 85) ∧
    ((List.replicate 89 3).length < (List.replicate 100 1).length →
      (processImage pilEnvA 85 1024 behReplace).obj =
        { payload := List.replicate 89 3, filters := [PdfName.DCTDecode], decodeParms := none,
          hasColorSpace := behReplace.obj.hasColorSpace } ∧
      (processImage pilEnvA 85 1024 behReplace).modified = true) ∧
    (¬ (List.replicate 89 3).length < (List.replicate 100 1).length →
      (processImage pilEnvA 85 1024 behReplace).obj = behReplace.obj ∧
      (processImage pilEnvA 85 1024 behReplace).modified = false) :=
  C3_replace_iff_strictly_smaller pilEnvA 85 1024 [0]
    { width := 2, height := 2, mode := ImgMode.rgb }
    (by decide) (by decide) (by decide) behReplace
    (List.replicate 100 1) (List.replicate 89 3) rfl rfl rfl rfl

/-- C6: an image whose extraction or decode fails is left with byte-identical
stored payload in the serialized output document, for every page and every
image reference on it. -/
theorem C6_failed_extraction_keeps_payload (env : PILEnv) (q m : Nat) (d : DocBehavior)
    (pages : List (List ImgBehavior)) (out : List (List PdfImageObj))
    (hopen : d.openResult = some pages)
    (hout : (compress_pdf_with_pikepdf env q m d).2 = some out) :
    out = pages.map (fun pg => pg.map (fun b => (processImage env q m b).obj)) ∧
    ∀ pg ∈ pages, ∀ b ∈ pg, ExtractionFails env q m b →
      (processImage env q m b).obj.payload = b.obj.payload := by
  constructor
  · unfold compress_pdf_with_pikepdf at hout
    rw [hopen] at hout
    by_cases hs : d.saveOk = true
    · simp only [hs, if_true] at hout
      exact (Option.some.injEq _ _ ▸ hout).symm
    · simp [hs] at hout
  · intro pg _ b _ hf
    exact processImage_fail_payload env q m b hf

/-- Witness for C6: a one-page document whose single image raises a generic
extraction error keeps its 3-byte payload. -/
theorem C6_failed_extraction_keeps_payload_witness :
    (compress_pdf_with_pikepdf pilEnvA 85 1024 docFail).2 =
      some [[(processImage pilEnvA 85 1024 behFail).obj]] ∧
    (processImage pilEnvA 85 1024 behFail).obj.payload = behFail.obj.payload :=
  ⟨rfl,
    (C6_failed_extraction_keeps_payload pilEnvA 85 1024 docFail [[behFail]]
      [[(processImage pilEnvA 85 1024 behFail).obj]] rfl rfl).2
      [behFail] (by simp) behFail (by simp)
      (Or.inr (Or.inl ⟨ReadError.generic, rfl⟩))⟩

/-- C7 counterexample, refuting two clauses of the claim at concrete inputs.
First, the claim states the fallback fires whenever the filter chain indicates
`DCTDecode` and no decode parameters are set, but the source additionally
requires `hasattr(raw_image, "ColorSpace")`: an image with a `DCTDecode`
filter chain, no `/DecodeParms` and no `/ColorSpace` entry gets no quality
hint attached.  Second, the claim states any other extraction error is logged
at warning severity, but an extraction failure that is not a
`pikepdf.PdfError` is caught by the outer handler at source line 123 and
logged at debug, not warning. -/
theorem C7_fallback_counterexample :
    behNoColorSpace.readResult = Except.error ReadError.pdfUnfilterable ∧
    PdfName.DCTDecode ∈ behNoColorSpace.obj.filters ∧
    behNoColorSpace.obj.decodeParms = none ∧
    behNoColorSpace.parmsSetOk = true ∧
    (processImage pilEnvA 85 1024 behNoColorSpace).obj.decodeParms = none ∧
    (processImage pilEnvA 85 1024 behNoColorSpace).modified = false ∧
    behFail.constructOk = true ∧
    behFail.readResult = Except.error ReadError.generic ∧
    (processImage pilEnvA 85 1024 behFail).log = some LogLevel.debug ∧
    (processImage pilEnvA 85 1024 behFail).log ≠ some LogLevel.warning := by
  refine ⟨rfl, by decide, rfl, rfl, rfl, rfl, rfl, rfl, rfl, by decide⟩

/-- C7 amended: on an unfilterable-stream extraction error, the fallback fires
exactly when the image additionally has a `/ColorSpace` entry, its filter
chain contains `DCTDecode` and `/DecodeParms` is unset: it then attaches the
quality hint without touching the payload bytes (logged at debug severity);
if assigning the hint itself fails the image is skipped with a debug log;
when the fallback conditions do not hold the image is left unmodified; any
other `PdfError` extraction error is logged at warning severity and the image
is skipped, while an extraction failure that is not a `PdfError` is logged at
debug severity and the image is skipped. -/
theorem C7_unfilterable_fallback_amended (env : PILEnv) (q m : Nat) (b bw bg : ImgBehavior)
    (hc : b.constructOk = true)
    (hr : b.readResult = Except.error ReadError.pdfUnfilterable)
    (hcw : bw.constructOk = true)
    (hrw : bw.readResult = Except.error ReadError.pdfOther)
    (hcg : bg.constructOk = true)
    (hrg : bg.readResult = Except.error ReadError.generic) :
    (b.obj.hasColorSpace = true → PdfName.DCTDecode ∈ b.obj.filters →
      b.obj.decodeParms = none →
      (b.parmsSetOk = true →
        (processImage env q m b).obj = { b.obj with decodeParms := some q } ∧
        (processImage env q m b).obj.payload = b.obj.payload ∧
        (processImage env q m b).modified = true ∧
        (processImage env q m b).log = some LogLevel.debug) ∧
      (b.parmsSetOk = false →
        (processImage env q m b).obj = b.obj ∧
        (processImage env q m b).modified = false ∧
        (processImage env q m b).log = some LogLevel.debug)) ∧
    (¬ (b.obj.hasColorSpace = true ∧ PdfName.DCTDecode ∈ b.obj.filters) →
      (processImage env q m b).obj = b.obj ∧ (processImage env q m b).modified = false) ∧
    ((processImage env q m bw).obj = bw.obj ∧
      (processImage env q m bw).modified = false ∧
      (processImage env q m bw).log = some LogLevel.warning) ∧
    ((processImage env q m bg).obj = bg.obj ∧
      (processImage env q m bg).modified = false ∧
      (processImage env q m bg).log = some LogLevel.debug) := by
  refine ⟨?_, ?_, ?_, ?_⟩
  · intro hcs hmem hdp
    constructor
    · intro hset
      unfold processImage
      rw [hc]
      dsimp only
      rw [hr]
      dsimp only
      rw [if_pos (And.intro hcs hmem), if_pos hdp, if_pos hset]
      exact ⟨rfl, rfl, rfl, rfl⟩
    · intro hset
      have hset2 : ¬ b.parmsSetOk = true := by simp [hset]
      unfold processImage
      rw [hc]
      dsimp only
      rw [hr]
      dsimp only
      rw [if_pos (And.intro hcs hmem), if_pos hdp, if_neg hset2]
      exact ⟨rfl, rfl, rfl⟩
  · intro hno
    unfold processImage
    rw [hc]
    dsimp only
    rw [hr]
    dsimp only
    rw [if_neg hno]
    exact ⟨rfl, rfl⟩
  · unfold processImage
    rw [hcw]
    dsimp only
    rw [hrw]
    exact ⟨rfl, rfl, rfl⟩
  · unfold processImage
    rw [hcg]
    dsimp only
    rw [hrg]
    exact ⟨rfl, rfl, rfl⟩

/-- Witness for C7 amended at concrete behaviors: one hitting the fallback
with a `/ColorSpace` entry, one raising a non-unfilterable `PdfError`, and
one raising a non-`PdfError` extraction failure. -/
theorem C7_unfilterable_fallback_amended_witness :
    ((processImage pilEnvA 85 1024 behUnfilterable).obj =
        { behUnfilterable.obj with decodeParms := some 85 } ∧
      (processImage pilEnvA 85 1024 behUnfilterable).log = some LogLevel.debug) ∧
    ((processImage pilEnvA 85 1024 behPdfOther).obj = behPdfOther.obj ∧
      (processImage pilEnvA 85 1024 behPdfOther).log = some LogLevel.warning) ∧
    ((processImage pilEnvA 85 1024 behFail).obj = behFail.obj ∧
      (processImage pilEnvA 85 1024 behFail).log = some LogLevel.debug) :=
  ⟨⟨(((C7_unfilterable_fallback_amended pilEnvA 85 1024 behUnfilterable behPdfOther behFail
        rfl rfl rfl rfl rfl rfl).1 rfl (by decide) rfl).1 rfl).1,
    (((C7_unfilterable_fallback_amended pilEnvA 85 1024 behUnfilterable behPdfOther behFail
        rfl rfl rfl rfl rfl rfl).1 rfl (by decide) rfl).1 rfl).2.2.2⟩,
    ⟨(C7_unfilterable_fallback_amended pilEnvA 85 1024 behUnfilterable behPdfOther behFail
        rfl rfl rfl rfl rfl rfl).2.2.1.1,
      (C7_unfilterable_fallback_amended pilEnvA 85 1024 behUnfilterable behPdfOther behFail
        rfl rfl rfl rfl rfl rfl).2.2.1.2.2⟩,
    ⟨(C7_unfilterable_fallback_amended pilEnvA 85 1024 behUnfilterable behPdfOther behFail
        rfl rfl rfl rfl rfl rfl).2.2.2.1,
      (C7_unfilterable_fallback_amended pilEnvA 85 1024 behUnfilterable behPdfOther behFail
        rfl rfl rfl rfl rfl rfl).2.2.2.2.2⟩⟩

/-- C8: every discovered file is processed exactly once inside an isolated
failure boundary (the record list has one entry per file, in discovery
order), a file whose processing raises is appended to the error list without
aborting the rest, the error log is written exactly when some file failed and
lists exactly the failed filenames with the timestamp, and the exit code is 0
regardless of per-file failures. -/
theorem C8_batch_failure_boundary (now : Nat) (files : List FileRun) :
    (mainBatch now files).1 = 0 ∧
    (mainBatch now files).2.1 = files.map (fun f => (f.1, outcomeOf f)) ∧
    (mainBatch now files).2.1.length = files.length ∧
    (runBatch files).2 = (files.filter (fun f => isFailedRun f)).map Prod.fst ∧
    ((mainBatch now files).2.2 = none ↔ (runBatch files).2 = []) ∧
    (∀ lg, (mainBatch now files).2.2 = some lg →
      lg.error_files = (runBatch files).2 ∧ lg.timestamp = now) := by
  have hrb := runBatch_go files [] []
  simp only [List.nil_append] at hrb
  have hres1 : (runBatch files).1 = files.map (fun f => (f.1, outcomeOf f)) := by
    rw [runBatch, hrb]
  have hres2 : (runBatch files).2 = (files.filter (fun f => isFailedRun f)).map Prod.fst := by
    rw [runBatch, hrb]
  refine ⟨rfl, ?_, ?_, hres2, ?_, ?_⟩
  · exact hres1
  · rw [show (mainBatch now files).2.1 = (runBatch files).1 from rfl, hres1]
    simp
  · have hdef : (mainBatch now files).2.2 =
        (if (runBatch files).2.isEmpty then none
         else some (create_error_log now (runBatch files).2)) := rfl
    rw [hdef]
    by_cases he : (runBatch files).2.isEmpty = true
    · rw [if_pos he]
      simp [List.isEmpty_iff.mp he]
    · rw [if_neg he]
      constructor
      · intro hcontra
        exact absurd hcontra (by simp)
      · intro hnil
        exact absurd (List.isEmpty_iff.mpr hnil) he
  · intro lg hlg
    have hdef : (mainBatch now files).2.2 =
        (if (runBatch files).2.isEmpty then none
         else some (create_error_log now (runBatch files).2)) := rfl
    rw [hdef] at hlg
    by_cases he : (runBatch files).2.isEmpty = true
    · rw [if_pos he] at hlg
      exact absurd hlg (by simp)
    · rw [if_neg he] at hlg
      rw [← Option.some.inj hlg]
      exact ⟨rfl, rfl⟩

/-- Witness for C8 at a concrete three-file batch whose second file fails. -/
theorem C8_batch_failure_boundary_witness :
    (mainBatch 7 filesA).1 = 0 ∧
    (mainBatch 7 filesA).2.1.length = filesA.length ∧
    (runBatch filesA).2 = [2] ∧
    (∀ lg, (mainBatch 7 filesA).2.2 = some lg →
      lg.error_files = (runBatch filesA).2 ∧ lg.timestamp = 7) :=
  ⟨(C8_batch_failure_boundary 7 filesA).1,
    (C8_batch_failure_boundary 7 filesA).2.2.1,
    by decide,
    (C8_batch_failure_boundary 7 filesA).2.2.2.2.2⟩

/-- C9: `compress_pdf` never writes to the input path: all candidate writes
land on the two scratch paths (erased on exit) and the final copy lands on
the output path, so any path distinct from those three — in particular the
input file — holds exactly its previous bytes afterwards. -/
theorem C9_input_path_unchanged (opts : CompressOptions) (env : CompressEnv)
    (outputP tGs tPike p : FPath) (fs : FileSys)
    (h1 : p ≠ outputP) (h2 : p ≠ tGs) (h3 : p ≠ tPike) :
    compress_pdf_fs opts env outputP tGs tPike fs p = fs p := by
  unfold compress_pdf_fs
  cases hgs : (if opts.try_ghostscript then env.gsFile else none) with
  | none =>
    cases hpk : env.pikeFile with
    | none => simp [fsWriteOpt, fsWrite, fsErase, h1, h2, h3]
    | some pb => simp [fsWriteOpt, fsWrite, fsErase, h1, h2, h3]
  | some gb =>
    cases hpk : env.pikeFile with
    | none => simp [fsWriteOpt, fsWrite, fsErase, h1, h2, h3]
    | some pb => simp [fsWriteOpt, fsWrite, fsErase, h1, h2, h3]

/-- Witness for C9: path 0 (the input) is untouched by a run writing to paths
1, 2 and 3. -/
theorem C9_input_path_unchanged_witness :
    (0 : FPath) ≠ 1 ∧ (0 : FPath) ≠ 2 ∧ (0 : FPath) ≠ 3 ∧
    compress_pdf_fs optsA envImproved 1 2 3 fsA 0 = fsA 0 :=
  ⟨by decide, by decide, by decide,
    C9_input_path_unchanged optsA envImproved 1 2 3 0 fsA
      (by decide) (by decide) (by decide)⟩

/-- C10: for a decodable payload with an extreme aspect ratio (smaller
dimension times `max_dimension` still below the larger dimension) the
truncating size computation yields 0 for the smaller output dimension, so
`compress_image` errors out instead of returning a payload — there is no
guard — and the caller's generic per-image exception handling skips the
image unmodified. -/
theorem C10_degenerate_resize_errors (w h m q : Nat) (env : PILEnv)
    (image : Bytes) (mode : ImgMode)
    (hh : 0 < h) (hm : 0 < m) (hdeg : h * m < w)
    (hdec : env.decode image = some { width := w, height := h, mode := mode }) :
    compress_image_newSize w h m = (m, 0) ∧
    compress_image env image m q = Except.error CIError.degenerateSize ∧
    (∀ b : ImgBehavior, b.constructOk = true → b.readResult = Except.ok image →
      (processImage env q m b).obj = b.obj ∧ (processImage env q m b).modified = false) := by
  have hhw : h ≤ w := le_trans (Nat.le_mul_of_pos_right h hm) (le_of_lt hdeg)
  have hw : 0 < w := lt_of_le_of_lt (Nat.zero_le _) hdeg
  have hmw : m < w := lt_of_le_of_lt (Nat.le_mul_of_pos_left m hh) hdeg
  have hmax : max w h = w := max_eq_left hhw
  have hns : compress_image_newSize w h m = (m, 0) := by
    unfold compress_image_newSize
    rw [hmax, if_pos hmw]
    have hw1 : w * m / w = m := by
      rw [Nat.mul_comm]
      exact Nat.mul_div_cancel _ hw
    have hh0 : h * m / w = 0 := Nat.div_eq_of_lt hdeg
    rw [hw1, hh0]
  have hci : compress_image env image m q = Except.error CIError.degenerateSize := by
    unfold compress_image
    rw [hdec]
    dsimp only
    rw [hns]
    simp
  refine ⟨hns, hci, ?_⟩
  intro b hbc hbr
  unfold processImage
  rw [hbc]
  dsimp only
  rw [hbr]
  dsimp only
  rw [hci]
  exact ⟨rfl, rfl⟩

/-- Witness for C10 at a 5000 x 1 image with max_dimension 1024: the computed
size is (1024, 0) and `compress_image` errors. -/
theorem C10_degenerate_resize_errors_witness :
    compress_image_newSize 5000 1 1024 = (1024, 0) ∧
    compress_image pilEnvWide [0] 1024 85 = Except.error CIError.degenerateSize :=
  ⟨(C10_degenerate_resize_errors 5000 1 1024 85 pilEnvWide [0] ImgMode.rgb
      (by decide) (by decide) (by decide) rfl).1,
    (C10_degenerate_resize_errors 5000 1 1024 85 pilEnvWide [0] ImgMode.rgb
      (by decide) (by decide) (by decide) rfl).2.1⟩
